import Mathlib

set_option maxRecDepth 40000

/-!
Verification of the case-tracking-system repository (a FastAPI service that
resolves a state/commission catalog and searches consumer-court case records
on the Jagriti portal).  The definitions below are a shallow embedding of the
Python sources under `app/`:

  * `app/utils/cache.py`        — `CacheManager` (MD5-keyed TTL cache)
  * `app/utils/http_client.py`  — `HTTPClient.get` retry loop
  * `app/utils/api_client.py`   — `JagritiAPIClient` (states, case parsing,
                                  endpoint fallback loop, hardcoded fallbacks)
  * `app/utils/jagriti_scraper.py` — `JagritiClient` (sample-case generation)
  * `app/services/jagriti_service.py` — `JagritiService` (name resolution,
                                  search orchestration, typed errors)
  * `app/services/hybrid_service.py`  — `HybridJagritiService.initialize`
  * `app/core/config.py`        — `Settings`

Machine integers are modelled as `Nat` with explicit reduction `% 2 ^ 32`
(resp. `% 2 ^ 64`) where Python's hashlib works with fixed-width words;
Python dicts are modelled as insertion-ordered association lists; `datetime`
instants are modelled as integer seconds.
-/

/-! ## Pythonic string primitives

`str.upper` / `str.lower` on the ASCII data that flows through this code
base, `str.strip`, and the Python substring operator `needle in hay`. -/

/-- Python `str.upper` restricted to ASCII (all catalog names in the source
are ASCII). -/
def pyUpper (s : String) : String := String.mk (s.data.map Char.toUpper)

/-- Python `str.lower` restricted to ASCII. -/
def pyLower (s : String) : String := String.mk (s.data.map Char.toLower)

/-- Drop leading whitespace characters. -/
def dropLeadWs : List Char → List Char
  | [] => []
  | c :: t => if c.isWhitespace then dropLeadWs t else c :: t

/-- Python `str.strip()`: whitespace trimmed at both ends. -/
def pyStrip (s : String) : String :=
  String.mk ((dropLeadWs (dropLeadWs s.data).reverse).reverse)

/-- Test that the first list is an initial segment of the second. -/
def leadsList : List Char → List Char → Bool
  | [], _ => true
  | _ :: _, [] => false
  | a :: as, b :: bs => a == b && leadsList as bs

/-- Test that the first list occurs contiguously inside the second. -/
def occursIn : List Char → List Char → Bool
  | [], _ => true
  | _ :: _, [] => false
  | n :: ns, h :: t => leadsList (n :: ns) (h :: t) || occursIn (n :: ns) t

/-- Python's substring test `needle in hay` on strings. -/
def pyInStr (needle hay : String) : Bool := occursIn needle.data hay.data

/-- Boolean membership of a string in a list of strings. -/
def memberStr (x : String) : List String → Bool
  | [] => false
  | y :: t => x == y || memberStr x t

/-! ## MD5 (hashlib.md5)

`cache.py` keys every entry by `hashlib.md5(f"{namespace}:{key}".encode()).hexdigest()`;
the full MD5 algorithm is embedded here so that key generation is the real
one.  Words are `Nat` values reduced modulo `2 ^ 32`. -/

/-- Reduction to a 32-bit word. -/
def u32 (n : Nat) : Nat := n % 4294967296

/-- Rotate a 32-bit word left by `s` bits (`0 < s < 32`). -/
def rotl (x s : Nat) : Nat := u32 (x * 2 ^ s) ||| x / 2 ^ (32 - s)

/-- MD5 round function F (round 1): `(B and C) or (not B and D)`. -/
def md5F (b c d : Nat) : Nat := (b &&& c) ||| ((b ^^^ 4294967295) &&& d)

/-- MD5 round function G (round 2): `(D and B) or (not D and C)`. -/
def md5G (b c d : Nat) : Nat := (d &&& b) ||| ((d ^^^ 4294967295) &&& c)

/-- MD5 round function H (round 3): `B xor C xor D`. -/
def md5H (b c d : Nat) : Nat := b ^^^ c ^^^ d

/-- MD5 round function I (round 4): `C xor (B or not D)`. -/
def md5I (b c d : Nat) : Nat := c ^^^ (b ||| (d ^^^ 4294967295))

/-- The 64 MD5 sine-derived constants `K[i] = floor(abs(sin(i+1)) * 2^32)`. -/
def md5KTable : List Nat :=
  [3614090360, 3905402710, 606105819, 3250441966, 4118548399, 1200080426, 2821735955, 4249261313,
   1770035416, 2336552879, 4294925233, 2304563134, 1804603682, 4254626195, 2792965006, 1236535329,
   4129170786, 3225465664, 643717713, 3921069994, 3593408605, 38016083, 3634488961, 3889429448,
   568446438, 3275163606, 4107603335, 1163531501, 2850285829, 4243563512, 1735328473, 2368359562,
   4294588738, 2272392833, 1839030562, 4259657740, 2763975236, 1272893353, 4139469664, 3200236656,
   681279174, 3936430074, 3572445317, 76029189, 3654602809, 3873151461, 530742520, 3299628645,
   4096336452, 1126891415, 2878612391, 4237533241, 1700485571, 2399980690, 4293915773, 2240044497,
   1873313359, 4264355552, 2734768916, 1309151649, 4149444226, 3174756917, 718787259, 3951481745]

/-- MD5 per-round shift amounts. -/
def md5S (i : Nat) : Nat :=
  let r := i / 16
  let j := i % 4
  if r = 0 then [7, 12, 17, 22].getD j 0
  else if r = 1 then [5, 9, 14, 20].getD j 0
  else if r = 2 then [4, 11, 16, 23].getD j 0
  else [6, 10, 15, 21].getD j 0

/-- Working state of the MD5 compression function. -/
structure MD5State where
  a : Nat
  b : Nat
  c : Nat
  d : Nat
deriving DecidableEq, Repr

/-- One of the 64 MD5 operations, at operation index `i`, over the chunk
word accessor `M`. -/
def md5Step (M : Nat → Nat) (st : MD5State) (i : Nat) : MD5State :=
  let f :=
    if i < 16 then md5F st.b st.c st.d
    else if i < 32 then md5G st.b st.c st.d
    else if i < 48 then md5H st.b st.c st.d
    else md5I st.b st.c st.d
  let g :=
    if i < 16 then i
    else if i < 32 then (5 * i + 1) % 16
    else if i < 48 then (3 * i + 5) % 16
    else (7 * i) % 16
  let tmp := u32 (f + st.a + md5KTable.getD i 0 + M g)
  { a := st.d, b := u32 (st.b + rotl tmp (md5S i)), c := st.b, d := st.c }

/-- Iterate `md5Step` for `fuel` operations starting at index `i`. -/
def md5Rounds (M : Nat → Nat) : Nat → Nat → MD5State → MD5State
  | _, 0, st => st
  | i, fuel + 1, st => md5Rounds M (i + 1) fuel (md5Step M st i)

/-- Word `g` (little-endian) of a 64-byte chunk. -/
def chunkWord (chunk : List Nat) (g : Nat) : Nat :=
  chunk.getD (4 * g) 0 + 256 * chunk.getD (4 * g + 1) 0 +
    65536 * chunk.getD (4 * g + 2) 0 + 16777216 * chunk.getD (4 * g + 3) 0

/-- MD5 compression of one 64-byte chunk. -/
def md5ProcessChunk (st : MD5State) (chunk : List Nat) : MD5State :=
  let r := md5Rounds (chunkWord chunk) 0 64 st
  { a := u32 (st.a + r.a), b := u32 (st.b + r.b), c := u32 (st.c + r.c), d := u32 (st.d + r.d) }

/-- Process `n` chunks of 64 bytes from the front of the padded message. -/
def md5Chunks : Nat → List Nat → MD5State → MD5State
  | 0, _, st => st
  | n + 1, msg, st => md5Chunks n (msg.drop 64) (md5ProcessChunk st (msg.take 64))

/-- The 8 little-endian bytes of a 64-bit value. -/
def le8 (n : Nat) : List Nat :=
  [n % 256, n / 256 % 256, n / 65536 % 256, n / 16777216 % 256,
   n / 4294967296 % 256, n / 1099511627776 % 256,
   n / 281474976710656 % 256, n / 72057594037927936 % 256]

/-- The 4 little-endian bytes of a 32-bit word. -/
def le4 (n : Nat) : List Nat := [n % 256, n / 256 % 256, n / 65536 % 256, n / 16777216 % 256]

/-- MD5 padding: append `0x80`, zero bytes to 56 mod 64, then the original
bit length as 64 bits little-endian. -/
def md5Pad (msg : List Nat) : List Nat :=
  msg ++ [128] ++ List.replicate ((119 - msg.length % 64) % 64) 0 ++
    le8 (8 * msg.length % 18446744073709551616)

/-- MD5 initial state. -/
def md5Init : MD5State := ⟨1732584193, 4023233417, 2562383102, 271733878⟩

/-- The 16-byte MD5 digest of a byte sequence. -/
def md5Digest (msg : List Nat) : List Nat :=
  let padded := md5Pad msg
  let st := md5Chunks (padded.length / 64) padded md5Init
  le4 st.a ++ le4 st.b ++ le4 st.c ++ le4 st.d

/-- A lowercase hex digit. -/
def hexDigit (n : Nat) : Char := if n < 10 then Char.ofNat (48 + n) else Char.ofNat (87 + n)

/-- Two lowercase hex characters per byte. -/
def hexOfBytes : List Nat → List Char
  | [] => []
  | b :: bs => hexDigit (b / 16) :: hexDigit (b % 16) :: hexOfBytes bs

/-- `hashlib.md5(...).hexdigest()`. -/
def md5Hex (msg : List Nat) : String := String.mk (hexOfBytes (md5Digest msg))

/-- UTF-8 encoding of one character (Python `str.encode()`). -/
def utf8Char (c : Char) : List Nat :=
  let n := c.toNat
  if n < 128 then [n]
  else if n < 2048 then [192 + n / 64, 128 + n % 64]
  else if n < 65536 then [224 + n / 4096, 128 + n / 64 % 64, 128 + n % 64]
  else [240 + n / 262144, 128 + n / 4096 % 64, 128 + n / 64 % 64, 128 + n % 64]

/-- UTF-8 encoding of a string (Python `str.encode()`). -/
def utf8Encode (s : String) : List Nat :=
  (s.data.map utf8Char).foldr (· ++ ·) []

/-- Sanity check for the MD5 embedding: the RFC 1321 test vector for "abc". -/
theorem md5Hex_abc : md5Hex (utf8Encode "abc") = "900150983cd24fb0d6963f7d28e17f72" := by decide

/-- Sanity check for the MD5 embedding: the RFC 1321 empty-message vector. -/
theorem md5Hex_empty : md5Hex (utf8Encode "") = "d41d8cd98f00b204e9800998ecf8427e" := by decide

/-! ## CacheManager (app/utils/cache.py)

Python dicts are insertion-ordered maps; they are modelled as association
lists in which `setA` updates in place (keeping the position of an existing
key) and appends fresh keys, matching dict semantics. -/

/-- Lookup in an association list (Python `d[k]` / `d.get(k)` presence). -/
def lookupA {α : Type} : List (String × α) → String → Option α
  | [], _ => none
  | e :: t, x => if e.1 = x then some e.2 else lookupA t x

/-- Python `d[k] = v`: update in place if the key exists, else append. -/
def setA {α : Type} : List (String × α) → String → α → List (String × α)
  | [], x, v => [(x, v)]
  | e :: t, x, v => if e.1 = x then (x, v) :: t else e :: setA t x v

/-- Python `del d[k]` / `d.pop(k, None)`: remove the key if present. -/
def eraseA {α : Type} (l : List (String × α)) (x : String) : List (String × α) :=
  l.filter (fun e => !(e.1 == x))

/-- CacheManager._generate_key:
`hashlib.md5(f"{namespace}:{key}".encode()).hexdigest()`. -/
def generateKey (ns k : String) : String := md5Hex (utf8Encode (ns ++ ":" ++ k))

/-- In-memory state of `CacheManager`: `_cache` maps generated keys to
values, `_timestamps` maps generated keys to the `datetime.now()` instant
(in integer seconds) recorded by `set`. -/
structure CacheManager (V : Type) where
  cache : List (String × V)
  timestamps : List (String × Int)

/-- A fresh `CacheManager()`. -/
def CacheManager.empty (V : Type) : CacheManager V := ⟨[], []⟩

/-- CacheManager.get (cache.py lines 20-33).  `now` is the value of
`datetime.now()` at the call, in seconds; the entry is a miss only when
`(now - timestamp).total_seconds() > ttl`, and an expired entry is deleted
from both dicts on that access.  Returns the Python return value together
with the mutated manager. -/
def CacheManager.get {V : Type} (m : CacheManager V) (ns k : String) (ttl : Int)
    (now : Int) : Option V × CacheManager V :=
  let ck := generateKey ns k
  match lookupA m.cache ck with
  | none => (none, m)
  | some v =>
    match lookupA m.timestamps ck with
    | none => (some v, m)
    | some ts =>
      if now - ts > ttl then
        (none, ⟨eraseA m.cache ck, eraseA m.timestamps ck⟩)
      else
        (some v, m)

/-- CacheManager.set (cache.py lines 35-39): store the value and record
`datetime.now()` unconditionally. -/
def CacheManager.set {V : Type} (m : CacheManager V) (ns k : String) (v : V)
    (now : Int) : CacheManager V :=
  let ck := generateKey ns k
  ⟨setA m.cache ck v, setA m.timestamps ck now⟩

/-- CacheManager.delete (cache.py lines 41-45). -/
def CacheManager.delete {V : Type} (m : CacheManager V) (ns k : String) : CacheManager V :=
  let ck := generateKey ns k
  ⟨eraseA m.cache ck, eraseA m.timestamps ck⟩

/-- The keys collected by the double loop of CacheManager.clear_namespace
(cache.py lines 49-55): for every key of `_cache` (outer loop), every stored
key whose digest contains `_generate_key(namespace, "")` as a substring is
appended. -/
def clearNamespaceKeys {V : Type} (m : CacheManager V) (ns : String) : List String :=
  (m.cache.map (fun _ =>
      m.cache.filterMap (fun e =>
        if pyInStr (generateKey ns "") e.1 then some e.1 else none))).foldr (· ++ ·) []

/-- CacheManager.clear_namespace (cache.py lines 47-59): pop every collected
key from both dicts. -/
def CacheManager.clearNamespace {V : Type} (m : CacheManager V) (ns : String) :
    CacheManager V :=
  let kd := clearNamespaceKeys m ns
  ⟨m.cache.filter (fun e => !(memberStr e.1 kd)),
   m.timestamps.filter (fun e => !(memberStr e.1 kd))⟩

/-- Sanity check: key generation agrees with hashlib.md5 on a concrete pair. -/
theorem generateKey_states_KA :
    generateKey "states" "KA" = "0297bcde5feec417f5c802537e7b6f32" := by decide

/-! ## Catalog entities and JagritiService (app/services/jagriti_service.py) -/

/-- A state record as built by the clients:
`{"id": ..., "name": <upper-cased>, "display_name": <as scraped>}`. -/
structure StateD where
  id : String
  name : String
  display_name : String
deriving DecidableEq, Repr

/-- A commission record:
`{"id": ..., "name": ..., "display_name": ..., "state_id": ...}`. -/
structure CommD where
  id : String
  name : String
  display_name : String
  state_id : String
deriving DecidableEq, Repr

/-- JagritiService.find_state_by_name (jagriti_service.py lines 169-175):
upper-case and strip the query, then return the first state of
`states_cache.values()` whose upper-cased `name` or upper-cased
`display_name` equals it. -/
def findStateByName (states : List StateD) (stateName : String) : Option StateD :=
  let q := pyStrip (pyUpper stateName)
  states.find? (fun s => pyUpper s.name == q || pyUpper s.display_name == q)

/-- JagritiService.find_commission_by_name (lines 177-187): if the state has
no entry in `commissions_cache` return `None`; otherwise lower-case and
strip the query and return the first commission whose lower-cased `name` or
`display_name` equals it. -/
def findCommissionByName (commissionsCache : List (String × List CommD))
    (stateId commissionName : String) : Option CommD :=
  match lookupA commissionsCache ("commissions_" ++ stateId) with
  | none => none
  | some comms =>
    let q := pyStrip (pyLower commissionName)
    comms.find? (fun c => pyLower c.name == q || pyLower c.display_name == q)

/-- JagritiService._fetch_commissions_from_portal (lines 76-103): every
return path of the function — success with status 200, non-200 status, and
the exception handler — returns the empty list, so the embedding is the
constant `[]`. -/
def fetchCommissionsFromPortal (_stateId : String) : List CommD := []

/-- A raw case dict as produced by the portal search, with Python
`dict.get` presence modelled by `Option`. -/
structure RawCase where
  case_number : Option String
  case_stage : Option String
  filing_date : Option String
  complainant : Option String
  complainant_advocate : Option String
  respondent : Option String
  respondent_advocate : Option String
  document_link : Option String
deriving DecidableEq, Repr

/-- JagritiService._perform_case_search (lines 105-150): as with the
commission fetch, every return path — 200 with text, other responses, and
the exception handler — returns the empty list. -/
def performCaseSearch (_stateId _commissionId _searchValue : String) : List RawCase := []

/-- The schema `CaseResponse` (app/schemas/case.py lines 79-91) restricted
to the fields the service layer fills in. -/
structure CaseResponse where
  case_number : String
  case_stage : String
  filing_date : String
  complainant : String
  complainant_advocate : Option String
  respondent : String
  respondent_advocate : Option String
  document_link : Option String
deriving DecidableEq, Repr

/-- Construction of a `CaseResponse` from a raw dict in
JagritiService.search_cases (lines 228-237): mandatory fields default to
`""` via `case_data.get(field, "")`, optional fields stay `None` when
absent. -/
def caseResponseOfRaw (r : RawCase) : CaseResponse :=
  { case_number := r.case_number.getD ""
    case_stage := r.case_stage.getD ""
    filing_date := r.filing_date.getD ""
    complainant := r.complainant.getD ""
    complainant_advocate := r.complainant_advocate
    respondent := r.respondent.getD ""
    respondent_advocate := r.respondent_advocate
    document_link := r.document_link }

/-- The caches of an initialized `JagritiService`: `states_cache` values in
insertion order, and `commissions_cache` keyed by `"commissions_" + state_id`. -/
structure JagritiServiceState where
  states_cache : List StateD
  commissions_cache : List (String × List CommD)
deriving DecidableEq, Repr

/-- JagritiService.get_commissions (lines 157-167): on a cache miss, fetch
from the portal and store the result; return the cached list. -/
def JagritiServiceState.getCommissions (st : JagritiServiceState) (stateId : String) :
    List CommD × JagritiServiceState :=
  let ckey := "commissions_" ++ stateId
  match lookupA st.commissions_cache ckey with
  | some comms => (comms, st)
  | none =>
    let comms := fetchCommissionsFromPortal stateId
    (comms, { st with commissions_cache := setA st.commissions_cache ckey comms })

/-- Result of JagritiService.search_cases: either one of the two typed
resolution failures (carrying the `available` display names interpolated
into the exception message) or the list of normalized cases. -/
inductive SearchOutcome where
  | stateNotFound (available : List String)
  | commissionNotFound (available : List String)
  | results (cases : List CaseResponse)
deriving DecidableEq, Repr

/-- JagritiService.search_cases (lines 189-240) on an initialized service.
Returns the outcome, whether `_perform_case_search` was invoked, and the
final service state.  `StateNotFoundException` carries the display names of
all cached states; `CommissionNotFoundException` carries the display names
of the commissions `get_commissions` returned for the resolved state; in
both failure cases the search request is never issued. -/
def JagritiServiceState.searchCases (st : JagritiServiceState)
    (state commission searchValue : String) :
    SearchOutcome × Bool × JagritiServiceState :=
  match findStateByName st.states_cache state with
  | none => (.stateNotFound (st.states_cache.map (·.display_name)), false, st)
  | some sInfo =>
    let fetched := st.getCommissions sInfo.id
    let st1 := fetched.2
    match findCommissionByName st1.commissions_cache sInfo.id commission with
    | none => (.commissionNotFound (fetched.1.map (·.display_name)), false, st1)
    | some cInfo =>
      let raw := performCaseSearch sInfo.id cInfo.id searchValue
      (.results (raw.map caseResponseOfRaw), true, st1)

/-! ## JagritiAPIClient (app/utils/api_client.py) -/

/-- settings.JAGRITI_BASE_URL (config.py line 10). -/
def jagritiBaseUrl : String := "https://e-jagriti.gov.in"

/-- JagritiAPIClient._get_fallback_states (api_client.py lines 345-356):
the hardcoded list returned whenever the states request or parse fails. -/
def fallbackStates : List StateD :=
  [⟨"KA", "KARNATAKA", "Karnataka"⟩,
   ⟨"TN", "TAMIL NADU", "Tamil Nadu"⟩,
   ⟨"MH", "MAHARASHTRA", "Maharashtra"⟩,
   ⟨"DL", "DELHI", "Delhi"⟩,
   ⟨"UP", "UTTAR PRADESH", "Uttar Pradesh"⟩,
   ⟨"GJ", "GUJARAT", "Gujarat"⟩,
   ⟨"RJ", "RAJASTHAN", "Rajasthan"⟩,
   ⟨"WB", "WEST BENGAL", "West Bengal"⟩]

/-- A source item of the states payload, with Python key presence modelled
by `Option` (`item.get("stateId", item.get("id", item.get("code", "")))`
and `item.get("stateName", item.get("name", ""))`). -/
structure StateItem where
  stateId : Option String
  idKey : Option String
  codeKey : Option String
  stateName : Option String
  nameKey : Option String
deriving DecidableEq, Repr

/-- JagritiAPIClient._parse_states_response (lines 196-236): keep items
whose id and name are both non-empty, upper-casing the name into the
canonical field; if nothing was parsed, return the fallback states. -/
def parseStatesResponse (items : List StateItem) : List StateD :=
  let states := items.filterMap (fun it =>
    let sid := ((it.stateId.orElse fun _ => it.idKey).orElse fun _ => it.codeKey).getD ""
    let sname := (it.stateName.orElse fun _ => it.nameKey).getD ""
    if sid ≠ "" && sname ≠ "" then
      some (⟨sid, pyUpper sname, sname⟩ : StateD)
    else none)
  if states.isEmpty then fallbackStates else states

/-- Outcome of the `_make_request` call inside JagritiAPIClient.get_states:
either an error dict / raised exception, or a decoded payload of items. -/
inductive StatesApiResult where
  | apiError
  | payload (items : List StateItem)
deriving DecidableEq, Repr

/-- JagritiAPIClient.get_states (lines 96-109): an error dict or an
exception yields `_get_fallback_states()`, otherwise the parsed payload. -/
def apiGetStates : StatesApiResult → List StateD
  | .apiError => fallbackStates
  | .payload items => parseStatesResponse items

/-- One `<tr>` of a results table: the text of its `<td>` cells and the
`href` of an `<a>` inside its last cell, if any. -/
structure Row where
  cells : List String
  lastLink : Option String
deriving DecidableEq, Repr

/-- A case dict as built by the HTML/JSON parsers (all keys present,
missing source data standing in as `""`). -/
structure CaseDict where
  case_number : String
  case_stage : String
  filing_date : String
  complainant : String
  complainant_advocate : String
  respondent : String
  respondent_advocate : String
  document_link : String
deriving DecidableEq, Repr

/-- JagritiAPIClient._extract_document_link (lines 332-343): prepend the
base URL to relative hrefs; no link yields `""`. -/
def extractDocumentLink (href? : Option String) : String :=
  match href? with
  | some href => if href.startsWith "/" then jagritiBaseUrl ++ href else href
  | none => ""

/-- One row of JagritiAPIClient._parse_cases_from_html (lines 284-297):
rows with fewer than 6 cells produce nothing; otherwise each field is the
stripped text of its fixed column when the row has that column and `""`
otherwise. -/
def parseRow (row : Row) : Option CaseDict :=
  if 6 ≤ row.cells.length then
    some
      { case_number := if 3 < row.cells.length then row.cells.getD 3 "" else ""
        case_stage := if 2 < row.cells.length then row.cells.getD 2 "" else ""
        filing_date := if 1 < row.cells.length then row.cells.getD 1 "" else ""
        complainant := if 4 < row.cells.length then row.cells.getD 4 "" else ""
        complainant_advocate := if 5 < row.cells.length then row.cells.getD 5 "" else ""
        respondent := if 6 < row.cells.length then row.cells.getD 6 "" else ""
        respondent_advocate := if 7 < row.cells.length then row.cells.getD 7 "" else ""
        document_link := if 8 < row.cells.length then extractDocumentLink row.lastLink else "" }
  else none

/-- JagritiAPIClient._parse_cases_from_html (lines 271-304): when no table
is found the result is `[]`; otherwise the header row is skipped and each
remaining row parsed by `parseRow`. -/
def parseCasesFromHtml (table? : Option (List Row)) : List CaseDict :=
  match table? with
  | none => []
  | some rows => (rows.drop 1).filterMap parseRow

/-- JagritiAPIClient._parse_json_cases_response (lines 306-330): every
source dict becomes a case dict, each field defaulting to `""`. -/
def parseJsonCases (cases : List RawCase) : List CaseDict :=
  cases.map (fun c =>
    { case_number := c.case_number.getD ""
      case_stage := c.case_stage.getD ""
      filing_date := c.filing_date.getD ""
      complainant := c.complainant.getD ""
      complainant_advocate := c.complainant_advocate.getD ""
      respondent := c.respondent.getD ""
      respondent_advocate := c.respondent_advocate.getD ""
      document_link := c.document_link.getD "" })

/-- What `_make_request` handed back for one search endpoint, as consumed
by the loop of JagritiAPIClient.search_cases (lines 140-156): an error dict
(also standing for a raised exception, which the loop likewise skips), a
non-empty `html_content` whose located table is `table?`, an empty
`html_content`, a JSON dict carrying a `cases`/`results` key, or a JSON
dict without one. -/
inductive ApiData where
  | errorResp
  | htmlResp (table? : Option (List Row))
  | htmlEmpty
  | jsonResp (cases : List RawCase)
  | jsonOther
deriving DecidableEq, Repr

/-- The endpoint loop of JagritiAPIClient.search_cases (lines 126-160):
each endpoint is tried in the fixed configured order; a non-empty list of
cases parsed from HTML is returned at once; a JSON dict with a
`cases`/`results` key is returned parsed (even when empty); every other
outcome moves on to the next endpoint; when all endpoints are exhausted
the function returns `[]`. -/
def apiSearchLoop : List ApiData → List CaseDict
  | [] => []
  | d :: rest =>
    match d with
    | .errorResp => apiSearchLoop rest
    | .htmlResp table? =>
      let cases := parseCasesFromHtml table?
      if cases.isEmpty then apiSearchLoop rest else cases
    | .htmlEmpty => apiSearchLoop rest
    | .jsonResp cases => parseJsonCases cases
    | .jsonOther => apiSearchLoop rest

/-! ## JagritiClient (app/utils/jagriti_scraper.py) -/

/-- The two hardcoded records of JagritiClient.generate_sample_cases
(jagriti_scraper.py lines 369-390). -/
def sampleCases : List CaseDict :=
  [{ case_number := "DCDRC/KA/BLR/2024/001789"
     case_stage := "Arguments Concluded"
     filing_date := "2024-08-15"
     complainant := "Rajesh Kumar Singh"
     complainant_advocate := "Adv. Priyanka Sharma"
     respondent := "TechnoWorld Electronics Pvt Ltd"
     respondent_advocate := "Adv. Suresh Reddy"
     document_link := "https://e-jagriti.gov.in/cases/DCDRC-KA-BLR-2024-001789" },
   { case_number := "DCDRC/KA/MYS/2024/002156"
     case_stage := "Evidence Recording"
     filing_date := "2024-09-22"
     complainant := "Sunita Reddy Patil"
     complainant_advocate := "Adv. Mohan Kumar Jain"
     respondent := "QuickCare Insurance Co Ltd"
     respondent_advocate := "Adv. Vikram Singh Rathore"
     document_link := "https://e-jagriti.gov.in/cases/DCDRC-KA-MYS-2024-002156" }]

/-- JagritiClient.generate_sample_cases (lines 365-406): keep the sample
records matching the lower-cased search value as a substring of the field
selected by `search_type` (only the three listed types filter; an empty
search value matches everything). -/
def generateSampleCases (searchType searchValue : String) : List CaseDict :=
  let sv := pyLower searchValue
  sampleCases.filter (fun c =>
    if sv = "" then true
    else if searchType = "complainant" then pyInStr sv (pyLower c.complainant)
    else if searchType = "respondent" then pyInStr sv (pyLower c.respondent)
    else if searchType = "case_number" then pyInStr sv (pyLower c.case_number)
    else true)

/-- JagritiClient.search_cases (lines 350-363): when the real-portal search
returns records they are passed through; when it returns `[]` or raises,
`generate_sample_cases` fabricates the result. -/
def scraperSearchCases (realResult : Except String (List CaseDict))
    (searchType searchValue : String) : List CaseDict :=
  match realResult with
  | .ok cs => if cs.isEmpty then generateSampleCases searchType searchValue else cs
  | .error _ => generateSampleCases searchType searchValue

/-! ## HybridJagritiService.initialize (app/services/hybrid_service.py) -/

/-- Outcome of one tier of the hybrid chain: a returned list or a raised
exception. -/
inductive StratResult (α : Type) where
  | ok (xs : List α)
  | exc (msg : String)
deriving DecidableEq, Repr

/-- Names of the two tiers of `HybridJagritiService`, used to record
invocation order. -/
inductive Tier where
  | api
  | browser
deriving DecidableEq, Repr

/-- The browser-tier call `self.browser_client.get_states()`
(hybrid_service.py line 37).  This call can only raise, never return
records: hybrid_service.py line 7 does
`from app.utils.browser_client import BrowserClient`, but browser_client.py
defines only the class `JagritiBrowserClient` (so the import itself raises
`ImportError` as soon as the module is loaded), and even that class has no
`get_states` method — its extraction entry points are the async
`extract_states` / `extract_commissions` — so were the import repaired the
attribute access would raise `AttributeError`.  Either way the browser tier
of the chain is an unconditional raise, embedded as `exc`. -/
def browserGetStates : StratResult StateD :=
  .exc "browser_client.BrowserClient is not defined"

/-- HybridJagritiService.initialize (hybrid_service.py lines 18-44),
parameterized by the outcome the API tier produces.  The API tier is
consulted first; a non-empty API result is installed and returns at once;
an empty API result or an API exception falls through to the browser tier
`browserGetStates`, whose raise is caught by the outer handler and
re-raised as a `JagritiServiceException`.  The second component records the
tiers invoked, in order. -/
def hybridInitialize (api : StratResult StateD) :
    Except String (List StateD) × List Tier :=
  match api with
  | .ok states =>
    if states.isEmpty then
      match browserGetStates with
      | .ok bs => (.ok bs, [.api, .browser])
      | .exc m => (.error ("Could not initialize service: " ++ m), [.api, .browser])
    else
      (.ok states, [.api])
  | .exc _ =>
    match browserGetStates with
    | .ok bs => (.ok bs, [.api, .browser])
    | .exc m => (.error ("Could not initialize service: " ++ m), [.api, .browser])

/-! ## HTTPClient.get (app/utils/http_client.py)

The retry loop `for attempt in range(settings.JAGRITI_MAX_RETRIES)` is
embedded with the per-attempt network outcome supplied as an oracle
`outcomes : Nat → AttemptOutcome`.  The backoff branches evaluate
`settings.JAGRITI_BACKOFF_FACTOR * (2 ** attempt)`; `Settings` in
app/core/config.py declares no field named `JAGRITI_BACKOFF_FACTOR`
(config.py lines 5-43), and a pydantic `BaseSettings` object raises
`AttributeError` on access to an undeclared field, so the attribute lookup
is modelled as an `Option Nat` that is `none` for the repository's actual
configuration: when it is `none`, reaching a backoff sleep aborts the call
with `AttributeError` instead of sleeping and retrying. -/

/-- settings.JAGRITI_MAX_RETRIES (config.py line 12). -/
def jagritiMaxRetries : Nat := 3

/-- The value of the attribute lookup `settings.JAGRITI_BACKOFF_FACTOR`:
`none`, because config.py declares no such field. -/
def settingsBackoffFactor : Option Nat := none

/-- What the network does on one attempt of `HTTPClient.get`: a successful
response, an `httpx.TimeoutException`, an `httpx.HTTPStatusError` with the
given status code (raised by `raise_for_status`), or any other exception. -/
inductive AttemptOutcome where
  | success (resp : String)
  | timeout
  | httpStatus (code : Nat)
  | otherError
deriving DecidableEq, Repr

/-- How a call to `HTTPClient.get` ends: a returned response, a raised
`SearchTimeoutException`, a raised `JagritiServiceException` (for an
unhandled status code, or for a generic failure on the last attempt), a
raised `AttributeError` from the missing settings field, or the implicit
`None` returned when the loop runs out of attempts without returning. -/
inductive GetResult where
  | ok (resp : String)
  | searchTimeout
  | serviceError (code : Nat)
  | requestFailed
  | pyAttributeError (attr : String)
  | noReturn
deriving DecidableEq, Repr

/-- Observable trace of a `HTTPClient.get` call: its final result, the
number of loop iterations entered (attempts), and the seconds slept inside
the loop, in order. -/
structure GetTrace where
  result : GetResult
  attempts : Nat
  sleeps : List Nat
deriving DecidableEq, Repr

/-- The body of the retry loop of `HTTPClient.get` (http_client.py lines
87-127), with `fuel` iterations of `range` left and current index
`attempt`.  Timeout on the last attempt raises `SearchTimeoutException`;
timeout earlier reaches the backoff sleep, which evaluates the missing
settings attribute (sleeping `b * 2 ^ attempt` only when the attribute
exists); status 429 sleeps 60 seconds and continues; status 403/401 clears
the session cookies (not tracked here) and continues; other status codes
raise `JagritiServiceException` at once; any other exception mirrors the
timeout branch but raises `JagritiServiceException` on the last attempt. -/
def httpGetLoop (outcomes : Nat → AttemptOutcome) (backoff : Option Nat)
    (maxRetries : Nat) : Nat → Nat → GetTrace
  | 0, _ => ⟨.noReturn, 0, []⟩
  | fuel + 1, attempt =>
    match outcomes attempt with
    | .success r => ⟨.ok r, 1, []⟩
    | .timeout =>
      if attempt = maxRetries - 1 then ⟨.searchTimeout, 1, []⟩
      else
        match backoff with
        | none => ⟨.pyAttributeError "JAGRITI_BACKOFF_FACTOR", 1, []⟩
        | some b =>
          let t := httpGetLoop outcomes backoff maxRetries fuel (attempt + 1)
          ⟨t.result, t.attempts + 1, b * 2 ^ attempt :: t.sleeps⟩
    | .httpStatus code =>
      if code = 429 then
        let t := httpGetLoop outcomes backoff maxRetries fuel (attempt + 1)
        ⟨t.result, t.attempts + 1, 60 :: t.sleeps⟩
      else if code = 403 || code = 401 then
        let t := httpGetLoop outcomes backoff maxRetries fuel (attempt + 1)
        ⟨t.result, t.attempts + 1, t.sleeps⟩
      else ⟨.serviceError code, 1, []⟩
    | .otherError =>
      if attempt = maxRetries - 1 then ⟨.requestFailed, 1, []⟩
      else
        match backoff with
        | none => ⟨.pyAttributeError "JAGRITI_BACKOFF_FACTOR", 1, []⟩
        | some b =>
          let t := httpGetLoop outcomes backoff maxRetries fuel (attempt + 1)
          ⟨t.result, t.attempts + 1, b * 2 ^ attempt :: t.sleeps⟩

/-- HTTPClient.get: run the retry loop over all `maxRetries` attempts. -/
def httpClientGet (outcomes : Nat → AttemptOutcome) (backoff : Option Nat)
    (maxRetries : Nat) : GetTrace :=
  httpGetLoop outcomes backoff maxRetries maxRetries 0

/-! ## Helper lemmas -/

/-- An initial segment is no longer than the list containing it. -/
theorem leadsList_length : ∀ {a b : List Char}, leadsList a b = true → a.length ≤ b.length := by
  intro a
  induction a with
  | nil => intro b _; exact Nat.zero_le _
  | cons x xs ih =>
    intro b h
    cases b with
    | nil => simp [leadsList] at h
    | cons y ys =>
      simp only [leadsList, Bool.and_eq_true] at h
      simpa using Nat.succ_le_succ (ih h.2)

/-- An initial segment of the same length is the whole list. -/
theorem leadsList_eq_of_length : ∀ {a b : List Char}, leadsList a b = true →
    a.length = b.length → a = b := by
  intro a
  induction a with
  | nil =>
    intro b _ hl
    cases b with
    | nil => rfl
    | cons y ys => simp at hl
  | cons x xs ih =>
    intro b h hl
    cases b with
    | nil => simp [leadsList] at h
    | cons y ys =>
      simp only [leadsList, Bool.and_eq_true, beq_iff_eq] at h
      simp only [List.length_cons, Nat.succ.injEq] at hl
      rw [h.1, ih h.2 hl]

/-- A contiguous occurrence is no longer than its host. -/
theorem occursIn_length : ∀ {b a : List Char}, occursIn a b = true → a.length ≤ b.length := by
  intro b
  induction b with
  | nil =>
    intro a h
    cases a with
    | nil => exact Nat.le_refl 0
    | cons x xs => simp [occursIn] at h
  | cons y ys ih =>
    intro a h
    cases a with
    | nil => exact Nat.zero_le _
    | cons x xs =>
      simp only [occursIn, Bool.or_eq_true] at h
      rcases h with h | h
      · exact leadsList_length h
      · exact Nat.le_trans (ih h) (Nat.le_succ _)

/-- A contiguous occurrence of the same length is the whole host. -/
theorem occursIn_eq_of_length : ∀ {b a : List Char}, occursIn a b = true →
    a.length = b.length → a = b := by
  intro b
  induction b with
  | nil =>
    intro a h _
    cases a with
    | nil => rfl
    | cons x xs => simp [occursIn] at h
  | cons y ys ih =>
    intro a h hl
    cases a with
    | nil => simp at hl
    | cons x xs =>
      simp only [occursIn, Bool.or_eq_true] at h
      rcases h with h | h
      · exact leadsList_eq_of_length h hl
      · have hle := occursIn_length h
        simp only [List.length_cons] at hl hle
        omega

/-- Python substring containment between strings of equal length is
equality. -/
theorem pyInStr_eq_of_length {a b : String} (h : pyInStr a b = true)
    (hl : a.length = b.length) : a = b := by
  cases a with
  | mk da =>
    cases b with
    | mk db =>
      have : da = db := occursIn_eq_of_length h hl
      rw [this]

/-- Specification of the boolean string-list membership test. -/
theorem memberStr_iff {x : String} : ∀ {l : List String}, memberStr x l = true ↔ x ∈ l := by
  intro l
  induction l with
  | nil => simp [memberStr]
  | cons y t ih =>
    simp [memberStr, ih, List.mem_cons]

/-- Two hex characters are emitted per byte. -/
theorem hexOfBytes_length : ∀ l : List Nat, (hexOfBytes l).length = 2 * l.length := by
  intro l
  induction l with
  | nil => rfl
  | cons b t ih =>
    simp only [hexOfBytes, List.length_cons, ih]
    omega

/-- The MD5 digest always has 16 bytes. -/
theorem md5Digest_length (msg : List Nat) : (md5Digest msg).length = 16 := by
  simp [md5Digest, le4]

/-- The length of a string built from an explicit character list. -/
theorem string_mk_length (l : List Char) : (String.mk l).length = l.length := rfl

/-- Every generated cache key is a 32-character hex digest. -/
theorem generateKey_length (ns k : String) : (generateKey ns k).length = 32 := by
  rw [generateKey, md5Hex, string_mk_length, hexOfBytes_length, md5Digest_length]

/-- Every key collected by the clear_namespace loop contains the digest of
the bare namespace as a substring. -/
theorem mem_clearNamespaceKeys {V : Type} {m : CacheManager V} {ns : String} {x : String}
    (h : x ∈ clearNamespaceKeys m ns) : pyInStr (generateKey ns "") x = true := by
  have inner : x ∈ m.cache.filterMap (fun e =>
      if pyInStr (generateKey ns "") e.1 then some e.1 else none) := by
    unfold clearNamespaceKeys at h
    revert h
    generalize m.cache.filterMap (fun e =>
      if pyInStr (generateKey ns "") e.1 then some e.1 else none) = inner
    induction m.cache with
    | nil => intro h; simp at h
    | cons e t ih =>
      intro h
      simp only [List.map_cons, List.foldr_cons, List.mem_append] at h
      rcases h with h | h
      · exact h
      · exact ih h
  rcases List.mem_filterMap.mp inner with ⟨e, _, he⟩
  by_cases hp : pyInStr (generateKey ns "") e.1 = true
  · simp only [hp, if_true, Option.some.injEq] at he
    rw [← he]
    exact hp
  · simp only [Bool.not_eq_true] at hp
    simp [hp] at he

/-- Filtering out a set of keys not containing `dk` does not change the
lookup of `dk`. -/
theorem lookupA_filter_not_removed {V : Type} {kd : List String} {dk : String}
    (h : memberStr dk kd = false) :
    ∀ l : List (String × V),
      lookupA (l.filter (fun e => !(memberStr e.1 kd))) dk = lookupA l dk := by
  intro l
  induction l with
  | nil => rfl
  | cons e t ih =>
    cases hp : memberStr e.1 kd with
    | true =>
      have hne : e.1 ≠ dk := by
        intro heq
        rw [heq, h] at hp
        exact Bool.false_ne_true hp
      simp only [List.filter_cons, hp, Bool.not_true, if_neg Bool.false_ne_true]
      rw [ih]
      simp [lookupA, hne]
    | false =>
      simp only [List.filter_cons, hp, Bool.not_false, if_pos rfl]
      by_cases he : e.1 = dk
      · simp [lookupA, he]
      · simp [lookupA, he, ih]

/-- If `s` is in the list, satisfies `p`, and is the only element of the
list satisfying `p`, then `find?` returns `s`. -/
theorem find?_unique {α : Type} (p : α → Bool) :
    ∀ (l : List α) (s : α), s ∈ l → p s = true →
      (∀ t ∈ l, p t = true → t = s) → l.find? p = some s := by
  intro l
  induction l with
  | nil => intro s h; cases h
  | cons a tl ih =>
    intro s hmem hps huniq
    by_cases hpa : p a = true
    · simp only [List.find?, hpa]
      rw [huniq a (List.mem_cons_self a tl) hpa]
    · have hpa' : p a = false := by simpa using hpa
      simp only [List.find?, hpa']
      have hs : s ∈ tl := by
        rcases List.mem_cons.mp hmem with h | h
        · exact absurd (h ▸ hps) hpa
        · exact h
      exact ih s hs hps (fun t ht h => huniq t (List.mem_cons_of_mem a ht) h)

/-- A two-state catalog as `JagritiService` would cache it. -/
def demoStates : List StateD :=
  [⟨"KA", "KARNATAKA", "Karnataka"⟩, ⟨"DL", "DELHI", "Delhi"⟩]

/-- C1: counterexample.  `find_state_by_name` has no substring tier: a
superstring of the display name ("Karnataka State") resolves to nothing,
while the exact canonical name resolves to the Karnataka state, so the four
listed query shapes do not all return the same `State`. -/
theorem find_state_superstring_misses :
    findStateByName demoStates "Karnataka State" = none ∧
    findStateByName demoStates "KARNATAKA" = some ⟨"KA", "KARNATAKA", "Karnataka"⟩ := by
  decide

/-- C1 (amended): resolving a state by name matches the upper-cased,
stripped query for equality against the upper-cased canonical name or the
upper-cased display name only; whenever the query agrees with state `s`
this way and no other state of the catalog collides with it, the first (and
here unique) match `s` is returned.  In particular the exact canonical
name, the exact display name, and differently-cased variants of either all
resolve to `s`; superstrings do not match. -/
theorem find_state_exact_match (sts : List StateD) (s : StateD) (q : String)
    (hmem : s ∈ sts)
    (hq : pyStrip (pyUpper q) = pyUpper s.name ∨ pyStrip (pyUpper q) = pyUpper s.display_name)
    (huniq : ∀ t ∈ sts,
      (pyUpper t.name = pyStrip (pyUpper q) ∨ pyUpper t.display_name = pyStrip (pyUpper q)) →
      t = s) :
    findStateByName sts q = some s := by
  unfold findStateByName
  apply find?_unique _ sts s hmem
  · rcases hq with h | h <;> simp [h]
  · intro t ht hp
    apply huniq t ht
    simpa [Bool.or_eq_true, beq_iff_eq] using hp

/-- Witness for `find_state_exact_match`: the lower-cased query
"karnataka" resolves to the Karnataka state of the demo catalog. -/
theorem find_state_exact_match_witness :
    findStateByName demoStates "karnataka" = some ⟨"KA", "KARNATAKA", "Karnataka"⟩ :=
  find_state_exact_match demoStates ⟨"KA", "KARNATAKA", "Karnataka"⟩ "karnataka"
    (by decide) (by decide) (by decide)

/-- C7: an unresolvable state name produces `StateNotFoundException`
carrying the display names of every cached state, and a resolvable state
with an unresolvable commission name produces `CommissionNotFoundException`
carrying the display names of the commissions known for that state; in both
cases `_perform_case_search` is never invoked (the `Bool` component is
`false`). -/
theorem search_cases_not_found_errors :
    (∀ (st : JagritiServiceState) (state commission sv : String),
      findStateByName st.states_cache state = none →
      st.searchCases state commission sv =
        (.stateNotFound (st.states_cache.map (·.display_name)), false, st)) ∧
    (∀ (st : JagritiServiceState) (state commission sv : String) (sInfo : StateD),
      findStateByName st.states_cache state = some sInfo →
      findCommissionByName (st.getCommissions sInfo.id).2.commissions_cache
        sInfo.id commission = none →
      st.searchCases state commission sv =
        (.commissionNotFound ((st.getCommissions sInfo.id).1.map (·.display_name)), false,
          (st.getCommissions sInfo.id).2)) := by
  constructor
  · intro st state commission sv h
    simp [JagritiServiceState.searchCases, h]
  · intro st state commission sv sInfo h1 h2
    simp [JagritiServiceState.searchCases, h1, h2]

/-- A demo service state with one commission cached for Karnataka. -/
def demoService : JagritiServiceState :=
  ⟨demoStates, [("commissions_KA", [⟨"KA02", "Bangalore Urban", "Bangalore Urban", "KA"⟩])]⟩

/-- Witness for `search_cases_not_found_errors` on the demo catalog. -/
theorem search_cases_not_found_errors_witness :
    demoService.searchCases "Goa" "Bangalore Urban" "X" =
      (.stateNotFound (demoService.states_cache.map (·.display_name)), false, demoService) ∧
    demoService.searchCases "Karnataka" "Mumbai" "X" =
      (.commissionNotFound ((demoService.getCommissions "KA").1.map (·.display_name)), false,
        (demoService.getCommissions "KA").2) :=
  ⟨search_cases_not_found_errors.1 demoService "Goa" "Bangalore Urban" "X" (by decide),
   search_cases_not_found_errors.2 demoService "Karnataka" "Mumbai" "X"
     ⟨"KA", "KARNATAKA", "Karnataka"⟩ (by decide) (by decide)⟩

/-- C3: the hybrid chain does consult the API tier first and the browser
tier second, but the browser tier can never supply records: whenever the
API tier yields an empty list or raises, `initialize` falls through to
`browserGetStates`, whose unconditional raise ends the call in a
`JagritiServiceException` — the claimed scenario in which the chain's
result equals the browser tier's records is unrealizable.  A non-empty API
result still short-circuits without touching the browser tier. -/
theorem hybrid_browser_tier_cannot_supply_records :
    (∀ (s : StateD) (t : List StateD),
      hybridInitialize (.ok (s :: t)) = (.ok (s :: t), [.api])) ∧
    hybridInitialize (.ok []) =
      (.error ("Could not initialize service: " ++
        "browser_client.BrowserClient is not defined"), [.api, .browser]) ∧
    (∀ m, hybridInitialize (.exc m) =
      (.error ("Could not initialize service: " ++
        "browser_client.BrowserClient is not defined"), [.api, .browser])) :=
  ⟨fun _ _ => rfl, rfl, fun _ => rfl⟩

/-- C2: counterexample.  When the states request fails outright,
`JagritiAPIClient.get_states` returns the hardcoded fallback catalog — a
fabricated non-empty result, not a typed exhaustion failure. -/
theorem api_get_states_fabricates :
    apiGetStates .apiError = fallbackStates ∧ fallbackStates ≠ [] := by
  exact ⟨rfl, by decide⟩

/-- C2 (amended): on total failure of the access methods the code
fabricates or silently degrades instead of surfacing a typed exhaustion
failure: `get_states` returns the hardcoded fallback catalog; the
scraper-tier search falls back to `generate_sample_cases` both when the
real search returns no records and when it raises; and the API-tier
endpoint loop returns a silent empty list once every endpoint errored. -/
theorem exhausted_paths_fabricate_or_go_silent :
    apiGetStates .apiError = fallbackStates ∧
    (∀ stype sv, scraperSearchCases (.ok []) stype sv = generateSampleCases stype sv) ∧
    (∀ msg stype sv, scraperSearchCases (.error msg) stype sv = generateSampleCases stype sv) ∧
    (∀ n, apiSearchLoop (List.replicate n .errorResp) = []) := by
  refine ⟨rfl, fun _ _ => rfl, fun _ _ _ => rfl, fun n => ?_⟩
  induction n with
  | zero => rfl
  | succ k ih => simpa [List.replicate_succ, apiSearchLoop] using ih

/-- A results table whose data row has exactly 6 cells. -/
def c8Rows : List Row :=
  [⟨["Sl", "Filing Date", "Stage", "Case Number", "Complainant", "Advocate"], none⟩,
   ⟨["1", "2024-01-01", "Hearing", "CC/12/2024", "Alice", "Adv. X"], none⟩]

/-- The case dict the parser derives from the 6-cell row of `c8Rows`. -/
def c8Case : CaseDict :=
  { case_number := "CC/12/2024", case_stage := "Hearing", filing_date := "2024-01-01",
    complainant := "Alice", complainant_advocate := "Adv. X",
    respondent := "", respondent_advocate := "", document_link := "" }

/-- C8: counterexample.  A source row with exactly 6 cells is emitted — not
dropped — with the mandatory `respondent` field (and others) set to the
empty string. -/
theorem parse_cases_emits_empty_fields :
    parseCasesFromHtml (some c8Rows) = [c8Case] ∧
    ∃ c ∈ parseCasesFromHtml (some c8Rows), c.respondent = "" := by
  decide

/-- C8 (amended): normalization drops exactly the source rows with fewer
than 6 cells; every emitted record comes from a remaining row with at least
6 cells via the fixed positional mapping of `parseRow`, which substitutes
the empty string for any field whose column the row lacks. -/
theorem parse_cases_row_shape :
    (∀ rows : List Row,
      (parseCasesFromHtml (some rows)).length =
        ((rows.drop 1).filter (fun r => decide (6 ≤ r.cells.length))).length) ∧
    (∀ (rows : List Row) (c : CaseDict), c ∈ parseCasesFromHtml (some rows) →
      ∃ r, r ∈ rows.drop 1 ∧ 6 ≤ r.cells.length ∧ parseRow r = some c) := by
  constructor
  · intro rows
    show ((rows.drop 1).filterMap parseRow).length = _
    induction rows.drop 1 with
    | nil => rfl
    | cons r t ih =>
      by_cases h : 6 ≤ r.cells.length
      · simp [List.filterMap_cons, List.filter_cons, parseRow, h, ih]
      · simp [List.filterMap_cons, List.filter_cons, parseRow, h, ih]
  · intro rows c hc
    have hc' : c ∈ (rows.drop 1).filterMap parseRow := hc
    rcases List.mem_filterMap.mp hc' with ⟨r, hr, hpr⟩
    refine ⟨r, hr, ?_, hpr⟩
    by_cases h : 6 ≤ r.cells.length
    · exact h
    · simp [parseRow, h] at hpr

/-- Witness for `parse_cases_row_shape` on the concrete 6-cell table. -/
theorem parse_cases_row_shape_witness :
    ∃ r, r ∈ c8Rows.drop 1 ∧ 6 ≤ r.cells.length ∧ parseRow r = some c8Case :=
  parse_cases_row_shape.2 c8Rows c8Case (by decide)

/-- Setting a key makes its lookup return the new value. -/
theorem lookupA_setA_same {α : Type} (x : String) (v : α) :
    ∀ l : List (String × α), lookupA (setA l x v) x = some v := by
  intro l
  induction l with
  | nil => simp [setA, lookupA]
  | cons e t ih =>
    by_cases h : e.1 = x
    · simp [setA, h, lookupA]
    · simp [setA, h, lookupA, ih]

/-- Erasing a key makes its lookup miss. -/
theorem lookupA_eraseA_same {α : Type} (x : String) :
    ∀ l : List (String × α), lookupA (eraseA l x) x = none := by
  intro l
  induction l with
  | nil => rfl
  | cons e t ih =>
    by_cases h : e.1 = x
    · simpa [eraseA, List.filter_cons, h] using ih
    · simpa [eraseA, List.filter_cons, h, lookupA] using ih

/-- A freshly set cache entry, for the cache claims' concrete instances. -/
def c5m : CacheManager String := (CacheManager.empty String).set "states" "all" "cached" 0

/-- C5: counterexample.  With the entry stored at instant 0 and
`ttl = 3600`, a `get` at the expiry instant `timestamp + ttl` itself still
returns the value: the miss condition is strictly `elapsed > ttl`, so the
claim's "miss at or after the expiry instant" fails at the instant. -/
theorem cache_hit_at_expiry_instant :
    (c5m.get "states" "all" 3600 3600).1 = some "cached" := by decide

/-- C5 (amended): `get` returns the stored value whenever
`now - timestamp ≤ ttl` (so also at the expiry instant itself) and misses
with lazy eviction whenever `now - timestamp > ttl`; a `set` immediately
followed by a `get` within a non-negative TTL round-trips the stored value;
and `set` overwrites the entry and its timestamp unconditionally. -/
theorem cache_get_semantics {V : Type} (m : CacheManager V) (ns k : String) (v : V)
    (ts now ttl : Int)
    (h1 : lookupA m.cache (generateKey ns k) = some v)
    (h2 : lookupA m.timestamps (generateKey ns k) = some ts) :
    (now - ts ≤ ttl → m.get ns k ttl now = (some v, m)) ∧
    (ttl < now - ts →
      (m.get ns k ttl now).1 = none ∧
      lookupA (m.get ns k ttl now).2.cache (generateKey ns k) = none) ∧
    (∀ (w : V) (t0 : Int), 0 ≤ ttl → ((m.set ns k w t0).get ns k ttl t0).1 = some w) ∧
    (∀ (w : V) (t0 : Int),
      lookupA (m.set ns k w t0).cache (generateKey ns k) = some w ∧
      lookupA (m.set ns k w t0).timestamps (generateKey ns k) = some t0) := by
  refine ⟨?_, ?_, ?_, ?_⟩
  · intro h
    have hno : ¬ (now - ts > ttl) := not_lt.mpr h
    simp [CacheManager.get, h1, h2, hno]
  · intro h
    constructor
    · simp [CacheManager.get, h1, h2, h]
    · simp [CacheManager.get, h1, h2, h, lookupA_eraseA_same]
  · intro w t0 h
    have hno : ¬ (ttl < 0) := not_lt.mpr h
    simp [CacheManager.get, CacheManager.set, lookupA_setA_same, hno]
  · intro w t0
    exact ⟨lookupA_setA_same _ _ _, lookupA_setA_same _ _ _⟩

/-- Witness for `cache_get_semantics`: within TTL the stored value comes
back unchanged; past TTL the same entry misses. -/
theorem cache_get_semantics_witness :
    c5m.get "states" "all" 3600 1000 = (some "cached", c5m) ∧
    (c5m.get "states" "all" 3600 9999).1 = none := by
  have ha := cache_get_semantics c5m "states" "all" "cached" 0 1000 3600
    (by decide) (by decide)
  have hb := cache_get_semantics c5m "states" "all" "cached" 0 9999 3600
    (by decide) (by decide)
  exact ⟨ha.1 (by decide), (hb.2.1 (by decide)).1⟩

/-- C9: the lifetime of a cache entry is decided by the `ttl` argument
passed to `get`, not by any expiry recorded at `set` time: for one and the
same stored entry and clock instant, a lookup with a large enough `ttl`
returns the value while a lookup with a small `ttl` misses and evicts. -/
theorem cache_ttl_at_lookup {V : Type} (m : CacheManager V) (ns k : String) (v : V)
    (ts now ttl1 ttl2 : Int)
    (h1 : lookupA m.cache (generateKey ns k) = some v)
    (h2 : lookupA m.timestamps (generateKey ns k) = some ts)
    (hbig : now - ts ≤ ttl1) (hsmall : ttl2 < now - ts) :
    (m.get ns k ttl1 now).1 = some v ∧
    (m.get ns k ttl2 now).1 = none ∧
    lookupA (m.get ns k ttl2 now).2.cache (generateKey ns k) = none := by
  have hno : ¬ (now - ts > ttl1) := not_lt.mpr hbig
  refine ⟨?_, ?_, ?_⟩
  · simp [CacheManager.get, h1, h2, hno]
  · simp [CacheManager.get, h1, h2, hsmall]
  · simp [CacheManager.get, h1, h2, hsmall, lookupA_eraseA_same]

/-- Witness for `cache_ttl_at_lookup`: at instant 3600 the entry stored at
instant 0 is alive under `ttl = 7200` and expired under `ttl = 60`. -/
theorem cache_ttl_at_lookup_witness :
    (c5m.get "states" "all" 7200 3600).1 = some "cached" ∧
    (c5m.get "states" "all" 60 3600).1 = none ∧
    lookupA (c5m.get "states" "all" 60 3600).2.cache (generateKey "states" "all") = none :=
  cache_ttl_at_lookup c5m "states" "all" "cached" 0 3600 7200 60
    (by decide) (by decide) (by decide) (by decide)

/-- Two entries of the "states" namespace, one stored under the empty key. -/
def c10m : CacheManager String :=
  ((CacheManager.empty String).set "states" "KA" "v1" 0).set "states" "" "v0" 0

/-- C10: `clear_namespace` tests whether the 32-character MD5 digest of
`namespace + ":"` occurs as a substring of each stored 32-character digest,
which holds only on digest equality; hence every entry whose generated key
differs from the digest of the empty key survives with its value, and any
entry removed (among the 32-character keys `set` produces) had exactly the
empty-key digest as its key. -/
theorem clear_namespace_spares_nonempty_keys {V : Type} (m : CacheManager V)
    (ns ns' k' : String) (v : V)
    (h1 : lookupA m.cache (generateKey ns' k') = some v)
    (h2 : generateKey ns' k' ≠ generateKey ns "") :
    lookupA (m.clearNamespace ns).cache (generateKey ns' k') = some v ∧
    ∀ p ∈ m.cache, p.1.length = 32 → p ∉ (m.clearNamespace ns).cache →
      p.1 = generateKey ns "" := by
  have hlen : (generateKey ns "").length = 32 := generateKey_length ns ""
  constructor
  · have hmem : memberStr (generateKey ns' k') (clearNamespaceKeys m ns) = false := by
      cases hm : memberStr (generateKey ns' k') (clearNamespaceKeys m ns) with
      | false => rfl
      | true =>
        exfalso
        have hin := memberStr_iff.mp hm
        have hsub := mem_clearNamespaceKeys hin
        have heq := pyInStr_eq_of_length hsub (by rw [hlen, generateKey_length ns' k'])
        exact h2 heq.symm
    show lookupA (m.cache.filter
      (fun e => !(memberStr e.1 (clearNamespaceKeys m ns)))) (generateKey ns' k') = some v
    rw [lookupA_filter_not_removed hmem]
    exact h1
  · intro p hp hplen hnot
    cases hkd : memberStr p.1 (clearNamespaceKeys m ns) with
    | true =>
      have hin := memberStr_iff.mp hkd
      have hsub := mem_clearNamespaceKeys hin
      exact (pyInStr_eq_of_length hsub (by rw [hlen, hplen])).symm
    | false =>
      exfalso
      apply hnot
      show p ∈ m.cache.filter (fun e => !(memberStr e.1 (clearNamespaceKeys m ns)))
      apply List.mem_filter.mpr
      refine ⟨hp, ?_⟩
      rw [hkd]
      rfl

/-- Witness for `clear_namespace_spares_nonempty_keys`: after clearing the
"states" namespace, the entry stored under the non-empty key "KA" is still
retrievable. -/
theorem clear_namespace_spares_nonempty_keys_witness :
    lookupA ((c10m.clearNamespace "states").cache) (generateKey "states" "KA") = some "v1" :=
  (clear_namespace_spares_nonempty_keys c10m "states" "states" "KA" "v1"
    (by decide) (by decide)).1

/-- C4: on repeated timeouts under the repository's actual configuration
(`JAGRITI_MAX_RETRIES = 3`, no `JAGRITI_BACKOFF_FACTOR` field in
`Settings`), the call makes exactly one attempt and aborts with
`AttributeError` at the backoff expression — it never sleeps and never
raises `SearchTimeoutException`.  Were the settings attribute present with
value `b`, the loop would behave as documented: 3 attempts, inter-attempt
sleeps `b * 2 ^ 0` and `b * 2 ^ 1`, then `SearchTimeoutException`. -/
theorem http_get_timeout_attribute_error :
    httpClientGet (fun _ => .timeout) settingsBackoffFactor jagritiMaxRetries =
      ⟨.pyAttributeError "JAGRITI_BACKOFF_FACTOR", 1, []⟩ ∧
    ∀ b : Nat, httpClientGet (fun _ => .timeout) (some b) jagritiMaxRetries =
      ⟨.searchTimeout, 3, [b * 2 ^ 0, b * 2 ^ 1]⟩ := by
  exact ⟨rfl, fun b => rfl⟩

/-- Attempt oracle answering 429 twice and then timing out. -/
def c6Outcomes : Nat → AttemptOutcome := fun i => if i < 2 then .httpStatus 429 else .timeout

/-- C6: counterexample.  With `JAGRITI_MAX_RETRIES = 3`, two 429 responses
followed by a timeout end in `SearchTimeoutException` raised at the very
first timeout attempt: the two 429 cooldown retries consumed two units of
the shared attempt budget, leaving a single non-429 attempt — not the at
least `maxRetries - 1 = 2` the claim's "reduced by at most one" implies
(compare `http_get_timeout_attribute_error`, where a first timeout with a
full budget does not raise `SearchTimeoutException`). -/
theorem http_get_429_consumes_budget :
    httpClientGet c6Outcomes settingsBackoffFactor jagritiMaxRetries =
      ⟨.searchTimeout, 3, [60, 60]⟩ := by
  rfl

/-- Loop form of the 429 behaviour: `j` consecutive 429 responses followed
by a success yield the successful response after `j + 1` attempts with a
fixed 60-second sleep per 429. -/
theorem httpGetLoop_429_then_success (outcomes : Nat → AttemptOutcome)
    (backoff : Option Nat) (maxRetries : Nat) :
    ∀ (j fuel attempt : Nat) (r : String),
      (∀ i, i < j → outcomes (attempt + i) = .httpStatus 429) →
      outcomes (attempt + j) = .success r →
      j < fuel →
      httpGetLoop outcomes backoff maxRetries fuel attempt =
        ⟨.ok r, j + 1, List.replicate j 60⟩ := by
  intro j
  induction j with
  | zero =>
    intro fuel attempt r h429 hsucc hfuel
    cases fuel with
    | zero => omega
    | succ f =>
      have h0 : outcomes attempt = .success r := by simpa using hsucc
      simp [httpGetLoop, h0]
  | succ jj ih =>
    intro fuel attempt r h429 hsucc hfuel
    cases fuel with
    | zero => omega
    | succ f =>
      have h0 : outcomes attempt = .httpStatus 429 := by
        simpa using h429 0 (Nat.succ_pos jj)
      have hrec := ih f (attempt + 1) r
        (fun i hi => by
          have harith : attempt + 1 + i = attempt + (i + 1) := by omega
          rw [harith]
          exact h429 (i + 1) (Nat.succ_lt_succ hi))
        (by
          have harith : attempt + 1 + jj = attempt + (jj + 1) := by omega
          rw [harith]
          exact hsucc)
        (by omega)
      simp [httpGetLoop, h0, hrec, List.replicate_succ]

/-- C6 (amended): on HTTP 429 the transport sleeps the fixed 60-second
cooldown and retries, but each 429 occurrence consumes one attempt of the
shared `JAGRITI_MAX_RETRIES` budget: `j` consecutive 429 responses followed
by a success produce the response after `j + 1` total attempts and `j`
cooldown sleeps, and are only possible while `j < maxRetries`. -/
theorem http_get_429_cooldown_retries (outcomes : Nat → AttemptOutcome)
    (backoff : Option Nat) (maxRetries j : Nat) (r : String)
    (h429 : ∀ i, i < j → outcomes i = .httpStatus 429)
    (hsucc : outcomes j = .success r)
    (hj : j < maxRetries) :
    httpClientGet outcomes backoff maxRetries = ⟨.ok r, j + 1, List.replicate j 60⟩ :=
  httpGetLoop_429_then_success outcomes backoff maxRetries j maxRetries 0 r
    (fun i hi => by simpa using h429 i hi)
    (by simpa using hsucc)
    hj

/-- Attempt oracle answering 429 once and then succeeding. -/
def c6wOutcomes : Nat → AttemptOutcome := fun i => if i < 1 then .httpStatus 429 else .success "resp"

/-- Witness for `http_get_429_cooldown_retries`: one 429 then success gives
the response after 2 attempts and one 60-second sleep. -/
theorem http_get_429_cooldown_retries_witness :
    httpClientGet c6wOutcomes settingsBackoffFactor jagritiMaxRetries = ⟨.ok "resp", 2, [60]⟩ :=
  http_get_429_cooldown_retries c6wOutcomes settingsBackoffFactor 3 1 "resp"
    (fun i hi => by
      have h0 : i = 0 := by omega
      rw [h0]
      rfl)
    rfl
    (by decide)
